import Mathlib

/-!
Verification of the synthetic solar-production generator
(`backend/data_simulator/solar_generator.py`, `utils.py`, `constants.py`).

Modelling conventions:
* Python floats are idealised as exact real numbers (`ℝ`); `round(x, 2)`
  is round-half-to-even on exact reals (`pyRound2`).
* `datetime` values are modelled by `PyDate` (the generator only reads the
  date part: `year`, `month`, `day`; `date.replace(hour=h, minute=0,
  second=0)` is modelled as the pair (date, hour)).
* The `random` module is modelled by explicit draw records.  Each loop
  iteration of `generate_hourly_production` consumes draws in a fixed
  order; we package the draws an hour can consume into one `HourDraws`
  record and pass the generator a function `ℕ → HourDraws` (draws by
  hour index).  `random.uniform a b` is `a + (b - a) * u` with a unit
  draw `u`, exactly as CPython implements it; `random.gauss 1 0.01` is
  `1 + 0.01 * g` where `g` is the standard normal variate.  The initial
  `random.randint(0, 25)` soiling draw is the separate argument `d0`.
* When `region_seed` is not `None`, `simulate_weather` re-seeds the
  global generator with `region_seed + int(date.strftime('%Y%m%d'))` at
  the top of every hour, and `random.seed` also resets the Gaussian
  cache; hence every hour of the run consumes the same, seed-determined
  prefix of the stream.  This is modelled by `generate_hourly_production_seeded`,
  which feeds every hour the one record `seedStream (seed + dateKey date)`,
  while the pre-seed ambient draw `d0` stays an arbitrary argument.
-/

/-- Calendar date, the date part of a Python `datetime`. -/
structure PyDate where
  year : ℤ
  month : ℤ
  day : ℤ
deriving DecidableEq

/-- Gregorian leap-year rule, as Python's `datetime` calendar uses. -/
def isLeap (y : ℤ) : Bool := (y % 4 == 0 && y % 100 != 0) || y % 400 == 0

/-- Number of days of month `m` of year `y`. -/
def daysInMonth (y m : ℤ) : ℤ :=
  if m = 2 then (if isLeap y then 29 else 28)
  else if m = 4 ∨ m = 6 ∨ m = 9 ∨ m = 11 then 30
  else 31

/-- The day after `d` (semantics of `d + timedelta(days=1)` on valid dates). -/
def nextDay (d : PyDate) : PyDate :=
  if d.day < daysInMonth d.year d.month then ⟨d.year, d.month, d.day + 1⟩
  else if d.month < 12 then ⟨d.year, d.month + 1, 1⟩
  else ⟨d.year + 1, 1, 1⟩

/-- `d + timedelta(days=n)` on valid dates: `n` single-day steps. -/
def addDays (d : PyDate) : ℕ → PyDate
  | 0 => d
  | n + 1 => nextDay (addDays d n)

/-- `int(date.strftime('%Y%m%d'))`, the date key mixed into the seed by
`simulate_weather`. -/
def dateKey (d : PyDate) : ℤ := d.year * 10000 + d.month * 100 + d.day

/-- One entry of `SOLAR_CONSTANTS` (`constants.py` lines 4–25). -/
structure LocationProfile where
  latitude : ℝ
  avg_peak_sun_hours : ℝ
  seasonal_variation : ℝ

/-- `constants.py`: the NAIROBI entry of `SOLAR_CONSTANTS`. -/
noncomputable def NAIROBI : LocationProfile := ⟨-1.286389, 5.5, 0.15⟩

/-- `constants.py`: the MOMBASA entry of `SOLAR_CONSTANTS`. -/
noncomputable def MOMBASA : LocationProfile := ⟨-4.043477, 5.8, 0.12⟩

/-- `constants.py`: the KISUMU entry of `SOLAR_CONSTANTS`. -/
noncomputable def KISUMU : LocationProfile := ⟨-0.091702, 5.3, 0.18⟩

/-- `constants.py`: the NAKURU entry of `SOLAR_CONSTANTS`. -/
noncomputable def NAKURU : LocationProfile := ⟨-0.303099, 5.6, 0.14⟩

/-- `constants.py` lines 4–25: `SOLAR_CONSTANTS`, the location registry,
as the lookup `location ↦ profile` used by `location in self.locations` /
`self.locations[location]`. -/
noncomputable def SOLAR_CONSTANTS (loc : String) : Option LocationProfile :=
  if loc = "NAIROBI" then some NAIROBI
  else if loc = "MOMBASA" then some MOMBASA
  else if loc = "KISUMU" then some KISUMU
  else if loc = "NAKURU" then some NAKURU
  else none

/-- `constants.py` line 28: `SYSTEM_EFFICIENCY = 0.85`. -/
noncomputable def SYSTEM_EFFICIENCY : ℝ := 0.85

/-- `constants.py` line 29: `PANEL_DEGRADATION_ANNUAL = 0.005`. -/
noncomputable def PANEL_DEGRADATION_ANNUAL : ℝ := 0.005

/-- Return value of `get_weather_condition` (`utils.py` lines 52–70). -/
structure WeatherSample where
  condition : String
  efficiency : ℝ

/-- `constants.py` lines 32–37: `WEATHER_PATTERNS` as the insertion-ordered
list of (condition, probability, efficiency). -/
noncomputable def WEATHER_PATTERNS : List (String × ℝ × ℝ) :=
  [("sunny", 0.70, 1.0), ("partly_cloudy", 0.20, 0.6),
   ("cloudy", 0.08, 0.3), ("rainy", 0.02, 0.1)]

/-- The cumulative walk of `get_weather_condition`: `cumulative += p;
if rand <= cumulative: return ...`, with the fall-through default. -/
noncomputable def weatherWalk (r : ℝ) : List (String × ℝ × ℝ) → ℝ → WeatherSample
  | [], _ => ⟨"sunny", 1.0⟩
  | (c, p, e) :: rest, cum =>
      if r ≤ cum + p then ⟨c, e⟩ else weatherWalk r rest (cum + p)

/-- `utils.py` lines 52–70: `get_weather_condition`, with the one
`random.random()` draw it makes passed in as `r` (its `date` argument is
never read by the function body). -/
noncomputable def get_weather_condition (r : ℝ) : WeatherSample :=
  weatherWalk r WEATHER_PATTERNS 0

/-- `utils.py` lines 73–88: `apply_seasonal_variation`. -/
noncomputable def apply_seasonal_variation (base_value : ℝ) (date : PyDate)
    (variation_factor : ℝ) : ℝ :=
  base_value *
    (if date.month ∈ ([1, 2, 6, 7, 8, 9] : List ℤ) then 1 + variation_factor * 0.5
     else if date.month ∈ ([3, 4, 5, 10, 11, 12] : List ℤ) then 1 - variation_factor * 0.5
     else 1.0)

/-- `solar_generator.py` lines 26–32: `clear_sky_irradiance`.  The `lat` and
`date` arguments are accepted and ignored, exactly as in the source; the
result is `max(0, cos((hour-12)*pi/12) * 1.0)`. -/
noncomputable def clear_sky_irradiance (lat : ℝ) (date : PyDate) (hour : ℕ) : ℝ :=
  max 0 (Real.cos (((hour : ℝ) - 12) * Real.pi / 12) * 1.0)

/-- `solar_generator.py` lines 43–46: `simulate_temperature`
(`20 + 15 * max(0, 1 - abs(hour - 13) / 7)`). -/
noncomputable def simulate_temperature (hour : ℕ) : ℝ :=
  20 + 15 * max 0 (1 - |(hour : ℝ) - 13| / 7)

/-- `solar_generator.py` lines 48–51: `apply_temperature_loss`. -/
noncomputable def apply_temperature_loss (power_watt cell_temp : ℝ) : ℝ :=
  power_watt * (1 - max 0 ((cell_temp - 25) * 0.004))

/-- `solar_generator.py` lines 53–56: `apply_soiling`. -/
noncomputable def apply_soiling (power : ℝ) (days_since_clean : ℕ) : ℝ :=
  power * max 0.8 (1 - 0.01 * ((min days_since_clean 20 : ℕ) : ℝ))

/-- `solar_generator.py` lines 58–61: `panel_degradation`; the
`random.uniform(0, 0.01 * max(0, years - 4))` call is `b * u` with unit
draw `u` (CPython: `uniform a b = a + (b - a) * random()`). -/
noncomputable def panel_degradation (original : ℝ) (years_in_service : ℤ)
    (u : ℝ) : ℝ :=
  original * (1 - 0.005 * (years_in_service : ℝ) -
    ((max 0 (years_in_service - 4) : ℤ) : ℝ) * 0.01 * u)

/-- `solar_generator.py` lines 63–71: `panel_faults`; `roll` is the
`random.random()` draw, `u` the unit draw behind `random.uniform(0.5, 0.8)`
(consumed only on the string-derate branch). -/
noncomputable def panel_faults (power : ℝ) (hour_idx : ℕ) (roll u : ℝ) : ℝ :=
  if roll < 0.005 then 0
  else if roll < 0.025 then power * (0.5 + (0.8 - 0.5) * u)
  else power

/-- `solar_generator.py` lines 73–78: `behavioral_grid_event`. -/
noncomputable def behavioral_grid_event (power : ℝ) (hour_idx : ℕ) : ℝ :=
  if hour_idx % 60 = 0 then power * 0.7 else power

/-- `solar_generator.py` lines 80–87: `inject_noise`; `g` is the standard
normal variate behind `random.gauss(1, 0.01)`, `cu` and `su` the unit draws
behind the two conditional `random.uniform` jitters. -/
noncomputable def inject_noise (power : ℝ) (season : String)
    (weather : WeatherSample) (g cu su : ℝ) : ℝ :=
  power *
    ((if weather.condition = "cloudy"
        then (1 + 0.01 * g) * (0.92 + (1.02 - 0.92) * cu)
        else 1 + 0.01 * g) *
      (if season = "long rains" ∨ season = "short rains"
        then 0.97 + (1.04 - 0.97) * su
        else 1))

/-- `solar_generator.py` lines 89–91: `simulate_maintenance_event`. -/
def simulate_maintenance_event (hour_idx : ℕ) : Bool := hour_idx % 120 == 0

/-- Python `round(x, 2)` idealised on exact reals: round `100 * x` half to
even, divide by 100.  `roundHalfEven` is the integer rounding. -/
noncomputable def roundHalfEven (x : ℝ) : ℤ :=
  if x - ⌊x⌋ < 1 / 2 then ⌊x⌋
  else if 1 / 2 < x - ⌊x⌋ then ⌊x⌋ + 1
  else if Even ⌊x⌋ then ⌊x⌋ else ⌊x⌋ + 1

/-- Python `round(x, 2)` on exact reals. -/
noncomputable def pyRound2 (x : ℝ) : ℝ := (roundHalfEven (100 * x) : ℝ) / 100

/-- The draws one iteration of the hour loop can consume, in consumption
order (weather roll, degradation uniform, fault roll, fault uniform,
gauss variate, cloudy jitter uniform, season jitter uniform, outage roll). -/
structure HourDraws where
  weather_r : ℝ
  degr_u : ℝ
  fault_r : ℝ
  fault_u : ℝ
  noise_g : ℝ
  noise_cu : ℝ
  noise_su : ℝ
  outage_r : ℝ

/-- One record of the `hourly_data` list built by
`generate_hourly_production`; `timestamp` is
`date.replace(hour=hour, minute=0, second=0)`, modelled as the pair
(`ts_date`, `ts_hour`). -/
structure HourlyReading where
  ts_date : PyDate
  ts_hour : ℕ
  power_kw : ℝ
  weather : String
  cell_temp_c : ℝ
  soiling_days : ℕ

noncomputable instance : Inhabited HourlyReading :=
  ⟨⟨⟨0, 1, 1⟩, 0, 0, "", 0, 0⟩⟩

/-- `solar_generator.py` lines 136–140: the post-hour soiling update
(reset on a maintenance hour, else increment).  This updated value is what
the reading records as `soiling_days`. -/
def nextSoil (hour d : ℕ) : ℕ :=
  if simulate_maintenance_event hour then 0 else d + 1

/-- `solar_generator.py` line 130: the season argument passed to
`inject_noise` (`'long rains' if date.month in [3,4,5,10,11,12] else 'dry'`). -/
def seasonArg (date : PyDate) : String :=
  if date.month ∈ ([3, 4, 5, 10, 11, 12] : List ℤ) then "long rains" else "dry"

/-- `solar_generator.py` lines 108–130: the `actual_power` value after
step 11 (advanced noise) of the loop body, before the clamp: the chain
weather efficiency → temperature derate → soiling → degradation → faults →
grid event → noise applied to `system_capacity_kw * cs_factor`. -/
noncomputable def prePower (cap : ℝ) (p : LocationProfile) (date : PyDate)
    (yrs : ℤ) (h dB : ℕ) (dr : HourDraws) : ℝ :=
  inject_noise
    (behavioral_grid_event
      (panel_faults
        (panel_degradation
          (apply_soiling
            (apply_temperature_loss
              (cap * clear_sky_irradiance p.latitude date h *
                (get_weather_condition dr.weather_r).efficiency)
              (simulate_temperature h))
            dB)
          yrs dr.degr_u)
        h dr.fault_r dr.fault_u)
      h)
    (seasonArg date) (get_weather_condition dr.weather_r)
    dr.noise_g dr.noise_cu dr.noise_su

/-- `solar_generator.py` lines 131–135: clamp to `[0, capacity]` (step 12),
then the quick-sim outage zeroing (step 13). -/
noncomputable def finalPower (cap : ℝ) (p : LocationProfile) (date : PyDate)
    (yrs : ℤ) (h dB : ℕ) (dr : HourDraws) : ℝ :=
  if dr.outage_r < 0.003 then 0
  else max 0 (min (prePower cap p date yrs h dB dr) cap)

/-- `solar_generator.py` lines 106–147: one iteration of the hour loop,
producing the appended reading.  `dB` is `days_since_clean` entering the
iteration; the recorded `soiling_days` is the updated counter
(`nextSoil h dB`). -/
noncomputable def hourReading (cap : ℝ) (p : LocationProfile) (date : PyDate)
    (yrs : ℤ) (h dB : ℕ) (dr : HourDraws) : HourlyReading :=
  { ts_date := date
    ts_hour := h
    power_kw := pyRound2 (finalPower cap p date yrs h dB dr)
    weather := (get_weather_condition dr.weather_r).condition
    cell_temp_c := pyRound2 (simulate_temperature h)
    soiling_days := nextSoil h dB }

/-- The hour loop of `generate_hourly_production`: `n` remaining
iterations, current hour `h`, current `days_since_clean` `d`. -/
noncomputable def genFrom (cap : ℝ) (p : LocationProfile) (date : PyDate)
    (yrs : ℤ) (draws : ℕ → HourDraws) : ℕ → ℕ → ℕ → List HourlyReading
  | 0, _, _ => []
  | n + 1, h, d =>
      hourReading cap p date yrs h d (draws h) ::
        genFrom cap p date yrs draws n (h + 1) (nextSoil h d)

/-- The `ValueError` of `solar_generator.py` line 101. -/
inductive SimError where
  | invalidLocation (loc : String)
deriving DecidableEq

/-- `solar_generator.py` lines 93–148: `generate_hourly_production`.
`d0` is the `random.randint(0, 25)` initial soiling phase (drawn from the
ambient stream before the loop), `draws h` the draws consumed by hour `h`. -/
noncomputable def generate_hourly_production (cap : ℝ) (location : String)
    (date : PyDate) (installation_year : ℤ) (d0 : ℕ)
    (draws : ℕ → HourDraws) : Except SimError (List HourlyReading) :=
  match SOLAR_CONSTANTS location with
  | none => .error (.invalidLocation location)
  | some p => .ok (genFrom cap p date (date.year - installation_year) draws 24 0 d0)

/-- `generate_hourly_production` when `region_seed` is set: every hour
re-seeds with `region_seed + int(date.strftime('%Y%m%d'))` before drawing,
so every hour consumes the same seed-determined draw record
`seedStream (seed + dateKey date)`; only the pre-loop `randint` draw `d0`
still comes from the ambient stream state. -/
noncomputable def generate_hourly_production_seeded (seedStream : ℤ → HourDraws)
    (seed : ℤ) (cap : ℝ) (location : String) (date : PyDate)
    (installation_year : ℤ) (d0 : ℕ) : Except SimError (List HourlyReading) :=
  generate_hourly_production cap location date installation_year d0
    (fun _ => seedStream (seed + dateKey date))

/-- The day loop of `generate_date_range` (`solar_generator.py` lines
182–193): day index `day`, `n` days remaining, accumulator `acc`; each day
calls `generate_hourly_production` with the default
`installation_year = 2023`, a fresh ambient soiling draw `d0s day` and that
day's hour draws `draws day`. -/
noncomputable def rangeGo (cap : ℝ) (location : String) (start : PyDate)
    (d0s : ℕ → ℕ) (draws : ℕ → ℕ → HourDraws) :
    ℕ → ℕ → List HourlyReading → Except SimError (List HourlyReading)
  | _, 0, acc => .ok acc
  | day, n + 1, acc =>
      match generate_hourly_production cap location (addDays start day) 2023
          (d0s day) (draws day) with
      | .error e => .error e
      | .ok daily => rangeGo cap location start d0s draws (day + 1) n (acc ++ daily)

/-- `solar_generator.py` lines 170–193: `generate_date_range`. -/
noncomputable def generate_date_range (cap : ℝ) (location : String)
    (start : PyDate) (days : ℕ) (d0s : ℕ → ℕ)
    (draws : ℕ → ℕ → HourDraws) : Except SimError (List HourlyReading) :=
  rangeGo cap location start d0s draws 0 days []

/-- Observation helper: the readings of a successful run, `[]` on failure. -/
def okReadings : Except SimError (List HourlyReading) → List HourlyReading
  | .ok l => l
  | .error _ => []

/-! ### Structural helper lemmas -/

/-- The soiling counter threaded through `i` loop iterations starting at
hour `h` with value `d`. -/
def soilThread : ℕ → ℕ → ℕ → ℕ
  | _, d, 0 => d
  | h, d, i + 1 => soilThread (h + 1) (nextSoil h d) i

lemma genFrom_length (cap : ℝ) (p : LocationProfile) (date : PyDate)
    (yrs : ℤ) (draws : ℕ → HourDraws) :
    ∀ n h d, (genFrom cap p date yrs draws n h d).length = n := by
  intro n
  induction n with
  | zero => intro h d; rfl
  | succ n ih => intro h d; simp [genFrom, ih]

lemma genFrom_getD (cap : ℝ) (p : LocationProfile) (date : PyDate)
    (yrs : ℤ) (draws : ℕ → HourDraws) :
    ∀ i n h d, i < n →
      (genFrom cap p date yrs draws n h d).getD i default =
        hourReading cap p date yrs (h + i) (soilThread h d i) (draws (h + i)) := by
  intro i
  induction i with
  | zero =>
      intro n h d hn
      match n, hn with
      | n + 1, _ => simp [genFrom, soilThread]
  | succ i ih =>
      intro n h d hn
      match n, hn with
      | n + 1, hn =>
          have hi : i < n := by omega
          have := ih n (h + 1) (nextSoil h d) hi
          simp only [genFrom, List.getD_cons_succ, this, soilThread]
          have : h + 1 + i = h + (i + 1) := by omega
          rw [this]

lemma nextSoil_zero (d : ℕ) : nextSoil 0 d = 0 := by
  simp [nextSoil, simulate_maintenance_event]

lemma nextSoil_pos {h : ℕ} (h1 : 1 ≤ h) (h2 : h < 120) (d : ℕ) :
    nextSoil h d = d + 1 := by
  have : h % 120 = h := Nat.mod_eq_of_lt h2
  simp [nextSoil, simulate_maintenance_event, this]
  omega

lemma soilThread_chain : ∀ i h, 1 ≤ h → h + i ≤ 120 →
    soilThread h (h - 1) i = h + i - 1 := by
  intro i
  induction i with
  | zero => intro h _ _; simp [soilThread]
  | succ i ih =>
      intro h h1 h2
      have hn : nextSoil h (h - 1) = h := by
        rw [nextSoil_pos h1 (by omega)]; omega
      simp only [soilThread, hn]
      have : soilThread (h + 1) h i = soilThread (h + 1) (h + 1 - 1) i := by
        norm_num
      rw [this, ih (h + 1) (by omega) (by omega)]
      omega

lemma soilThread_from0 (d0 : ℕ) {i : ℕ} (h1 : 1 ≤ i) (h2 : i ≤ 120) :
    soilThread 0 d0 i = i - 1 := by
  match i, h1 with
  | i + 1, _ =>
      simp only [soilThread, nextSoil_zero]
      have : soilThread 1 0 i = soilThread 1 (1 - 1) i := by norm_num
      rw [this, soilThread_chain i 1 (by omega) (by omega)]
      omega

/-- The clear-sky factor vanishes at and before hour 6 and at and after
hour 18: there `|hour − 12| ≥ 6`, the angle is at least `π/2` away from
noon and the cosine is nonpositive. -/
lemma clear_sky_zero (lat : ℝ) (date : PyDate) {h : ℕ} (hh : h < 24)
    (hside : h ≤ 6 ∨ 18 ≤ h) : clear_sky_irradiance lat date h = 0 := by
  unfold clear_sky_irradiance
  have h10 : Real.cos (((h : ℝ) - 12) * Real.pi / 12) * 1.0 =
      Real.cos (((h : ℝ) - 12) * Real.pi / 12) := by norm_num
  rw [h10, max_eq_left]
  have hpi := Real.pi_pos
  rcases hside with h6 | h18
  · have hc : ((h : ℝ) - 12) * Real.pi / 12 = -((12 - (h : ℝ)) * Real.pi / 12) := by
      ring
    rw [hc, Real.cos_neg]
    apply Real.cos_nonpos_of_pi_div_two_le_of_le
    · have : (h : ℝ) ≤ 6 := by exact_mod_cast h6
      nlinarith
    · have : (0 : ℝ) ≤ (h : ℝ) := Nat.cast_nonneg h
      nlinarith
  · apply Real.cos_nonpos_of_pi_div_two_le_of_le
    · have : (18 : ℝ) ≤ (h : ℝ) := by exact_mod_cast h18
      nlinarith
    · have : (h : ℝ) ≤ 23 := by exact_mod_cast Nat.le_of_lt_succ hh
      nlinarith

lemma clear_sky_nonneg (lat : ℝ) (date : PyDate) (h : ℕ) :
    0 ≤ clear_sky_irradiance lat date h := le_max_left 0 _

/-- When the clear-sky factor is zero the whole multiplicative chain of
the hour is zero, whatever the draws and the soiling state. -/
lemma prePower_of_cs_zero (cap : ℝ) (p : LocationProfile) (date : PyDate)
    (yrs : ℤ) (h dB : ℕ) (dr : HourDraws)
    (hcs : clear_sky_irradiance p.latitude date h = 0) :
    prePower cap p date yrs h dB dr = 0 := by
  simp only [prePower, apply_temperature_loss, apply_soiling,
    panel_degradation, panel_faults, behavioral_grid_event, inject_noise, hcs]
  split_ifs <;> ring

/-! ### Rounding lemmas -/

lemma roundHalfEven_nonneg {x : ℝ} (hx : 0 ≤ x) : 0 ≤ roundHalfEven x := by
  have h0 : (0 : ℤ) ≤ ⌊x⌋ := Int.floor_nonneg.mpr hx
  unfold roundHalfEven
  split_ifs <;> omega

lemma roundHalfEven_le_int {x : ℝ} {n : ℤ} (hx : x ≤ (n : ℝ)) :
    roundHalfEven x ≤ n := by
  have hf : ⌊x⌋ ≤ n := by
    have := Int.floor_le_floor hx
    simpa using this
  rcases eq_or_lt_of_le hf with heq | hlt
  · have hcast : ((⌊x⌋ : ℤ) : ℝ) = (n : ℝ) := by exact_mod_cast heq
    unfold roundHalfEven
    rw [if_pos (by linarith)]
    exact hf
  · unfold roundHalfEven
    split_ifs <;> omega

lemma pyRound2_nonneg {x : ℝ} (hx : 0 ≤ x) : 0 ≤ pyRound2 x := by
  unfold pyRound2
  have : (0 : ℝ) ≤ (roundHalfEven (100 * x) : ℝ) := by
    exact_mod_cast roundHalfEven_nonneg (by linarith)
  positivity

lemma pyRound2_le_cent {x : ℝ} {m : ℤ} (hx : x ≤ (m : ℝ) / 100) :
    pyRound2 x ≤ (m : ℝ) / 100 := by
  have h1 : 100 * x ≤ (m : ℝ) := by linarith
  have h2 : roundHalfEven (100 * x) ≤ m := roundHalfEven_le_int h1
  have h3 : ((roundHalfEven (100 * x) : ℤ) : ℝ) ≤ (m : ℝ) := by exact_mod_cast h2
  unfold pyRound2
  linarith

lemma pyRound2_zero : pyRound2 0 = 0 := by
  unfold pyRound2 roundHalfEven
  norm_num

/-! ### Bounds on the clamped hourly power -/

lemma finalPower_nonneg (cap : ℝ) (p : LocationProfile) (date : PyDate)
    (yrs : ℤ) (h dB : ℕ) (dr : HourDraws) :
    0 ≤ finalPower cap p date yrs h dB dr := by
  unfold finalPower
  split_ifs
  · exact le_refl 0
  · exact le_max_left 0 _

lemma finalPower_le_cap {cap : ℝ} (hcap : 0 ≤ cap) (p : LocationProfile)
    (date : PyDate) (yrs : ℤ) (h dB : ℕ) (dr : HourDraws) :
    finalPower cap p date yrs h dB dr ≤ cap := by
  unfold finalPower
  split_ifs
  · exact hcap
  · exact max_le hcap (min_le_right _ _)

lemma finalPower_of_cs_zero {cap : ℝ} (hcap : 0 ≤ cap) (p : LocationProfile)
    (date : PyDate) (yrs : ℤ) {h : ℕ} (dB : ℕ) (dr : HourDraws)
    (hcs : clear_sky_irradiance p.latitude date h = 0) :
    finalPower cap p date yrs h dB dr = 0 := by
  unfold finalPower
  rw [prePower_of_cs_zero cap p date yrs h dB dr hcs]
  rw [min_eq_left hcap, max_self]
  split_ifs <;> rfl

/-! ### Irrelevance of the initial soiling draw -/

/-- Hour 0 is a maintenance hour (`0 % 120 == 0`) and its clear-sky factor
is zero, so the hour-0 reading does not depend on the initial soiling
draw: the derate it feeds multiplies a zero power and the recorded
counter is the reset value 0. -/
lemma hourReading_hour0_d0 (cap : ℝ) (p : LocationProfile) (date : PyDate)
    (yrs : ℤ) (d0 d0' : ℕ) (dr : HourDraws) :
    hourReading cap p date yrs 0 d0 dr = hourReading cap p date yrs 0 d0' dr := by
  have hcs : clear_sky_irradiance p.latitude date 0 = 0 :=
    clear_sky_zero _ _ (by omega) (Or.inl (by omega))
  have h1 : finalPower cap p date yrs 0 d0 dr = finalPower cap p date yrs 0 d0' dr := by
    unfold finalPower
    rw [prePower_of_cs_zero cap p date yrs 0 d0 dr hcs,
      prePower_of_cs_zero cap p date yrs 0 d0' dr hcs]
  unfold hourReading
  rw [h1, nextSoil_zero, nextSoil_zero]

/-- A full 24-hour run does not depend on the initial soiling draw. -/
lemma genFrom24_d0 (cap : ℝ) (p : LocationProfile) (date : PyDate)
    (yrs : ℤ) (draws : ℕ → HourDraws) (d0 d0' : ℕ) :
    genFrom cap p date yrs draws 24 0 d0 = genFrom cap p date yrs draws 24 0 d0' := by
  show genFrom cap p date yrs draws (23 + 1) 0 d0 =
    genFrom cap p date yrs draws (23 + 1) 0 d0'
  simp only [genFrom]
  rw [hourReading_hour0_d0 cap p date yrs d0 d0' (draws 0), nextSoil_zero,
    nextSoil_zero]

/-- Unfolding `generate_hourly_production` at a registered location. -/
lemma generate_ok {loc : String} {p : LocationProfile}
    (hp : SOLAR_CONSTANTS loc = some p) (cap : ℝ) (date : PyDate) (iy : ℤ)
    (d0 : ℕ) (draws : ℕ → HourDraws) :
    generate_hourly_production cap loc date iy d0 draws =
      Except.ok (genFrom cap p date (date.year - iy) draws 24 0 d0) := by
  unfold generate_hourly_production
  rw [hp]

/-- A successful run comes from a registered location and is the 24-hour
loop output. -/
lemma generate_ok_inv {cap : ℝ} {loc : String} {date : PyDate} {iy : ℤ}
    {d0 : ℕ} {draws : ℕ → HourDraws} {rs : List HourlyReading}
    (hr : generate_hourly_production cap loc date iy d0 draws = Except.ok rs) :
    ∃ p, SOLAR_CONSTANTS loc = some p ∧
      rs = genFrom cap p date (date.year - iy) draws 24 0 d0 := by
  unfold generate_hourly_production at hr
  cases hsc : SOLAR_CONSTANTS loc with
  | none => rw [hsc] at hr; cases hr
  | some p =>
      rw [hsc] at hr
      exact ⟨p, rfl, (Except.ok.injEq _ _ ▸ congrArg id hr).symm ▸ by
        cases hr; rfl⟩

/-! ### Claim theorems: C2, C6, C7, C9, C10 -/

/-- C2: every successful `generate_hourly_production` call returns exactly
24 readings, the reading at position `i` carries hour `i` of the requested
date (so timestamps are strictly increasing by hour, with no reordering or
deduplication). -/
theorem C2_exactly_24_ordered_hours (cap : ℝ) (loc : String) (date : PyDate)
    (iy : ℤ) (d0 : ℕ) (draws : ℕ → HourDraws) (rs : List HourlyReading)
    (hr : generate_hourly_production cap loc date iy d0 draws = Except.ok rs) :
    rs.length = 24 ∧
      (∀ i, i < 24 → (rs.getD i default).ts_hour = i ∧
        (rs.getD i default).ts_date = date) ∧
      (∀ i j, i < j → j < 24 →
        (rs.getD i default).ts_hour < (rs.getD j default).ts_hour) := by
  obtain ⟨p, _, hrs⟩ := generate_ok_inv hr
  subst hrs
  have hget : ∀ i, i < 24 →
      ((genFrom cap p date (date.year - iy) draws 24 0 d0).getD i default).ts_hour = i ∧
      ((genFrom cap p date (date.year - iy) draws 24 0 d0).getD i default).ts_date = date := by
    intro i hi
    rw [genFrom_getD cap p date (date.year - iy) draws i 24 0 d0 hi]
    simp [hourReading]
  refine ⟨genFrom_length cap p date (date.year - iy) draws 24 0 d0, hget, ?_⟩
  intro i j hij hj
  rw [(hget i (by omega)).1, (hget j hj).1]
  exact hij

/-- C2 witness: a concrete valid run. -/
theorem C2_exactly_24_ordered_hours_witness :
    (genFrom 10 NAIROBI ⟨2023, 6, 15⟩ 0 (fun _ => ⟨0, 0, 0, 0, 0, 0, 0, 0⟩)
        24 0 0).length = 24 :=
  (C2_exactly_24_ordered_hours 10 "NAIROBI" ⟨2023, 6, 15⟩ 2023 0
    (fun _ => ⟨0, 0, 0, 0, 0, 0, 0, 0⟩)
    (genFrom 10 NAIROBI ⟨2023, 6, 15⟩ 0 (fun _ => ⟨0, 0, 0, 0, 0, 0, 0, 0⟩) 24 0 0)
    (by norm_num [generate_hourly_production, SOLAR_CONSTANTS])).1

/-- C6: with a fixed reproducibility seed, two runs of
`generate_hourly_production` on the same arguments return identical
output sequences whatever the ambient random-stream state before each run:
the only pre-seed draw is the initial soiling phase `d0`, and it never
reaches any output field (its only use multiplies the hour-0 power, which
is zero because the hour-0 clear-sky factor is zero). -/
theorem C6_seeded_bit_identical (seedStream : ℤ → HourDraws) (seed : ℤ)
    (cap : ℝ) (loc : String) (date : PyDate) (iy : ℤ) (d0₁ d0₂ : ℕ) :
    generate_hourly_production_seeded seedStream seed cap loc date iy d0₁ =
      generate_hourly_production_seeded seedStream seed cap loc date iy d0₂ := by
  unfold generate_hourly_production_seeded generate_hourly_production
  cases hsc : SOLAR_CONSTANTS loc with
  | none => rfl
  | some p =>
      simp only
      rw [genFrom24_d0 cap p date (date.year - iy) _ d0₁ d0₂]

/-- C7: at every hour whose clear-sky factor is zero — hours ≤ 6 and
hours ≥ 18 — the returned reading has `power_kw = 0`, for every draw
outcome: the zero clear-sky factor zeroes the whole multiplicative chain,
the clamp and outage step keep it zero and `round(0, 2) = 0`. -/
theorem C7_zero_cs_hours_zero_power (cap : ℝ) (loc : String) (date : PyDate)
    (iy : ℤ) (d0 : ℕ) (draws : ℕ → HourDraws) (rs : List HourlyReading)
    (h : ℕ) (hcap : 0 ≤ cap)
    (hr : generate_hourly_production cap loc date iy d0 draws = Except.ok rs)
    (hh : h < 24) (hside : h ≤ 6 ∨ 18 ≤ h) :
    (rs.getD h default).power_kw = 0 := by
  obtain ⟨p, _, hrs⟩ := generate_ok_inv hr
  subst hrs
  rw [genFrom_getD cap p date (date.year - iy) draws h 24 0 d0 hh]
  simp only [hourReading, Nat.zero_add]
  rw [finalPower_of_cs_zero hcap p date (date.year - iy)
    (soilThread 0 d0 h) (draws h) (clear_sky_zero _ _ hh hside),
    pyRound2_zero]

/-- C7 witness: hour 6 of a concrete valid run has zero power. -/
theorem C7_zero_cs_hours_zero_power_witness :
    ((genFrom 10 NAIROBI ⟨2023, 6, 15⟩ 0 (fun _ => ⟨0, 0, 0, 0, 0, 0, 0, 0⟩)
        24 0 0).getD 6 default).power_kw = 0 :=
  C7_zero_cs_hours_zero_power 10 "NAIROBI" ⟨2023, 6, 15⟩ 2023 0
    (fun _ => ⟨0, 0, 0, 0, 0, 0, 0, 0⟩)
    (genFrom 10 NAIROBI ⟨2023, 6, 15⟩ 0 (fun _ => ⟨0, 0, 0, 0, 0, 0, 0, 0⟩) 24 0 0)
    6 (by norm_num)
    (by norm_num [generate_hourly_production, SOLAR_CONSTANTS])
    (by norm_num) (Or.inl (by norm_num))

/-- C9: requesting a location that is not in the registry fails with the
typed `invalidLocation` error and produces no readings (the check is the
first statement of `generate_hourly_production`, before the hour loop). -/
theorem C9_invalid_location_error (cap : ℝ) (loc : String) (date : PyDate)
    (iy : ℤ) (d0 : ℕ) (draws : ℕ → HourDraws)
    (hp : SOLAR_CONSTANTS loc = none) :
    generate_hourly_production cap loc date iy d0 draws =
      Except.error (SimError.invalidLocation loc) := by
  unfold generate_hourly_production
  rw [hp]

/-- C9 witness: requesting LONDON fails with the typed error. -/
theorem C9_invalid_location_error_witness :
    generate_hourly_production 10 "LONDON" ⟨2024, 1, 1⟩ 2023 0
        (fun _ => ⟨0, 0, 0, 0, 0, 0, 0, 0⟩) =
      Except.error (SimError.invalidLocation "LONDON") :=
  C9_invalid_location_error 10 "LONDON" ⟨2024, 1, 1⟩ 2023 0
    (fun _ => ⟨0, 0, 0, 0, 0, 0, 0, 0⟩)
    (by simp [SOLAR_CONSTANTS])

/-- C10: in every successful run the reading for hour `h` records
`soiling_days = h` (hour 0 is a maintenance hour, so the counter resets to
0 there and then increments once per hour, and the reading records the
post-update counter), and the whole output is independent of the randomly
drawn initial soiling phase `d0`, which therefore never appears in any
output field. -/
theorem C10_soiling_days_equals_hour (cap : ℝ) (loc : String) (date : PyDate)
    (iy : ℤ) (d0 : ℕ) (draws : ℕ → HourDraws) (rs : List HourlyReading)
    (hr : generate_hourly_production cap loc date iy d0 draws = Except.ok rs) :
    (∀ h, h < 24 → (rs.getD h default).soiling_days = h) ∧
      (∀ d0', generate_hourly_production cap loc date iy d0' draws =
        Except.ok rs) := by
  obtain ⟨p, hp, hrs⟩ := generate_ok_inv hr
  constructor
  · intro h hh
    subst hrs
    rw [genFrom_getD cap p date (date.year - iy) draws h 24 0 d0 hh]
    simp only [hourReading, Nat.zero_add]
    rcases Nat.eq_zero_or_pos h with h0 | h1
    · subst h0
      simp [soilThread, nextSoil_zero]
    · rw [soilThread_from0 d0 h1 (by omega), nextSoil_pos h1 (by omega)]
      omega
  · intro d0'
    rw [generate_ok hp cap date iy d0' draws,
      genFrom24_d0 cap p date (date.year - iy) draws d0' d0, ← hrs]

/-- C10 witness: hour 12 of a concrete valid run records
`soiling_days = 12`. -/
theorem C10_soiling_days_equals_hour_witness :
    ((genFrom 10 NAIROBI ⟨2023, 6, 15⟩ 0 (fun _ => ⟨0, 0, 0, 0, 0, 0, 0, 0⟩)
        24 0 7).getD 12 default).soiling_days = 12 :=
  (C10_soiling_days_equals_hour 10 "NAIROBI" ⟨2023, 6, 15⟩ 2023 7
    (fun _ => ⟨0, 0, 0, 0, 0, 0, 0, 0⟩)
    (genFrom 10 NAIROBI ⟨2023, 6, 15⟩ 0 (fun _ => ⟨0, 0, 0, 0, 0, 0, 0, 0⟩) 24 0 7)
    (by norm_num [generate_hourly_production, SOLAR_CONSTANTS])).1 12 (by norm_num)

/-! ### Concrete evaluation helpers -/

lemma weather_sunny {r : ℝ} (hr : r ≤ 0.7) :
    get_weather_condition r = ⟨"sunny", 1.0⟩ := by
  unfold get_weather_condition WEATHER_PATTERNS
  simp only [weatherWalk]
  rw [if_pos (by linarith)]

lemma simulate_temperature_12 : simulate_temperature 12 = 230 / 7 := by
  unfold simulate_temperature
  have h1 : ((12 : ℕ) : ℝ) - 13 = -1 := by norm_num
  rw [h1, abs_neg, abs_one]
  rw [max_eq_right (by norm_num : (0:ℝ) ≤ 1 - 1 / 7)]
  norm_num

lemma clear_sky_12 (lat : ℝ) (date : PyDate) :
    clear_sky_irradiance lat date 12 = 1 := by
  unfold clear_sky_irradiance
  have h1 : ((12 : ℕ) : ℝ) - 12 = 0 := by norm_num
  rw [h1]
  norm_num [Real.cos_zero]

/-- Evaluation of the hour-12 chain for a run in a dry month of the
installation year, with a sunny weather roll, no fault rolls, soiling
counter 11 and gauss variate `g`: the surviving factors are the clear-sky
factor 1, weather efficiency 1, temperature derate `339/350`, soiling
derate `89/100`, degradation factor 1 and noise `1 + 0.01·g` — and no
system-efficiency or seasonal factor. -/
lemma prePower_12_eval (cap : ℝ) (p : LocationProfile) (date : PyDate)
    (hdry : date.month ∉ ([3, 4, 5, 10, 11, 12] : List ℤ)) (g : ℝ) :
    prePower cap p date 0 12 11 ⟨1/2, 0, 1/2, 0, g, 0, 0, 1/2⟩ =
      cap * (339 / 350) * (89 / 100) * (1 + 0.01 * g) := by
  unfold prePower
  rw [weather_sunny (by norm_num), clear_sky_12, simulate_temperature_12]
  unfold seasonArg
  rw [if_neg hdry]
  unfold apply_temperature_loss apply_soiling panel_degradation panel_faults
    behavioral_grid_event inject_noise
  norm_num
  ring_nf
  norm_num [max_eq_right (by norm_num : (0.8:ℝ) ≤ 89 / 100)]
  rw [if_neg (by simp : ¬ (("dry" : String) = "long rains" ∨
      ("dry" : String) = "short rains")),
    if_neg (by simp : ¬ (("sunny" : String) = "cloudy"))]

lemma pyRound2_point006 : pyRound2 (3 / 500) = 1 / 100 := by
  have hf : ⌊(100 * (3 / 500 : ℝ))⌋ = 0 := by
    rw [Int.floor_eq_iff]
    constructor <;> norm_num
  unfold pyRound2 roundHalfEven
  rw [hf]
  norm_num

/-! ### Claim C1: power bounds -/

/-- C1 (amended): every reading of a successful run satisfies
`0 ≤ power_kw`, and `power_kw ≤ capacity_kw` holds whenever the capacity
is an integer multiple of 0.01 (the clamp bounds the pre-rounding value by
the capacity, and rounding to 2 decimals cannot cross a multiple of 0.01).
For capacities that are not multiples of 0.01 the final rounding can push
`power_kw` above `capacity_kw` (see the counterexample at capacity
0.006). -/
theorem C1_power_within_bounds (cap : ℝ) (loc : String) (date : PyDate)
    (iy : ℤ) (d0 : ℕ) (draws : ℕ → HourDraws) (rs : List HourlyReading)
    (i : ℕ) (m : ℤ) (hcap : 0 < cap) (hcent : cap = (m : ℝ) / 100)
    (hr : generate_hourly_production cap loc date iy d0 draws = Except.ok rs)
    (hi : i < 24) :
    0 ≤ (rs.getD i default).power_kw ∧ (rs.getD i default).power_kw ≤ cap := by
  obtain ⟨p, _, hrs⟩ := generate_ok_inv hr
  subst hrs
  rw [genFrom_getD cap p date (date.year - iy) draws i 24 0 d0 hi]
  simp only [hourReading, Nat.zero_add]
  constructor
  · exact pyRound2_nonneg (finalPower_nonneg _ _ _ _ _ _ _)
  · rw [hcent]
    apply pyRound2_le_cent
    rw [← hcent]
    exact finalPower_le_cap (le_of_lt hcap) p date (date.year - iy) i
      (soilThread 0 d0 i) (draws i)

/-- C1 witness: the bounds at hour 12 of a concrete valid run with
capacity 10 kW. -/
theorem C1_power_within_bounds_witness :
    0 ≤ ((genFrom 10 NAIROBI ⟨2023, 6, 15⟩ 0 (fun _ => ⟨0, 0, 0, 0, 0, 0, 0, 0⟩)
        24 0 0).getD 12 default).power_kw ∧
      ((genFrom 10 NAIROBI ⟨2023, 6, 15⟩ 0 (fun _ => ⟨0, 0, 0, 0, 0, 0, 0, 0⟩)
        24 0 0).getD 12 default).power_kw ≤ 10 :=
  C1_power_within_bounds 10 "NAIROBI" ⟨2023, 6, 15⟩ 2023 0
    (fun _ => ⟨0, 0, 0, 0, 0, 0, 0, 0⟩)
    (genFrom 10 NAIROBI ⟨2023, 6, 15⟩ 0 (fun _ => ⟨0, 0, 0, 0, 0, 0, 0, 0⟩) 24 0 0)
    12 1000 (by norm_num) (by norm_num)
    (by norm_num [generate_hourly_production, SOLAR_CONSTANTS]) (by norm_num)

/-- C1 counterexample: with the valid capacity 0.006 kW (> 0) and
achievable draws (sunny roll 1/2, gauss variate 100, fault and outage
rolls 1/2), the hour-12 reading of a NAIROBI run rounds the clamped value
0.006 up to `power_kw = 0.01 > capacity_kw`: the claimed invariant
`power_kw ≤ capacity_kw` fails after the final rounding. -/
theorem C1_power_bound_counterexample :
    ¬ (((okReadings (generate_hourly_production (3 / 500) "NAIROBI"
          ⟨2023, 6, 15⟩ 2023 5 (fun _ => ⟨1/2, 0, 1/2, 0, 100, 0, 0, 1/2⟩))).getD
          12 default).power_kw ≤ 3 / 500) := by
  have hp : SOLAR_CONSTANTS "NAIROBI" = some NAIROBI := by simp [SOLAR_CONSTANTS]
  rw [generate_ok hp]
  simp only [okReadings]
  have hy : ((⟨2023, 6, 15⟩ : PyDate).year - 2023 : ℤ) = 0 := by norm_num
  rw [hy]
  rw [genFrom_getD (3/500) NAIROBI ⟨2023, 6, 15⟩ 0 _ 12 24 0 5 (by norm_num)]
  simp only [hourReading, Nat.zero_add]
  rw [soilThread_from0 5 (by norm_num) (by norm_num)]
  norm_num
  unfold finalPower
  rw [if_neg (by norm_num : ¬ (1/2 : ℝ) < 0.003)]
  rw [prePower_12_eval (3/500) NAIROBI ⟨2023, 6, 15⟩ (by decide) 100]
  rw [min_eq_right (by norm_num), max_eq_right (by norm_num)]
  rw [pyRound2_point006]
  norm_num

/-! ### Claim C8: range composition -/

lemma rangeGo_ok {loc : String} {p : LocationProfile}
    (hp : SOLAR_CONSTANTS loc = some p) (cap : ℝ) (start : PyDate)
    (d0s : ℕ → ℕ) (draws : ℕ → ℕ → HourDraws) :
    ∀ n day acc, rangeGo cap loc start d0s draws day n acc =
      Except.ok (acc ++ (List.range n).flatMap fun k =>
        genFrom cap p (addDays start (day + k))
          ((addDays start (day + k)).year - 2023) (draws (day + k)) 24 0
          (d0s (day + k))) := by
  intro n
  induction n with
  | zero => intro day acc; simp [rangeGo]
  | succ n ih =>
      intro day acc
      have hstep : (List.range (n + 1)).flatMap (fun k =>
          genFrom cap p (addDays start (day + k))
            ((addDays start (day + k)).year - 2023) (draws (day + k)) 24 0
            (d0s (day + k))) =
          genFrom cap p (addDays start day) ((addDays start day).year - 2023)
            (draws day) 24 0 (d0s day) ++
          (List.range n).flatMap (fun k =>
            genFrom cap p (addDays start (day + 1 + k))
              ((addDays start (day + 1 + k)).year - 2023) (draws (day + 1 + k))
              24 0 (d0s (day + 1 + k))) := by
        rw [List.range_succ_eq_map, List.flatMap_cons, List.flatMap_map]
        have harg : (fun k => genFrom cap p (addDays start (day + Nat.succ k))
            ((addDays start (day + Nat.succ k)).year - 2023)
            (draws (day + Nat.succ k)) 24 0 (d0s (day + Nat.succ k))) =
            (fun k => genFrom cap p (addDays start (day + 1 + k))
              ((addDays start (day + 1 + k)).year - 2023) (draws (day + 1 + k))
              24 0 (d0s (day + 1 + k))) := by
          funext k
          have : day + Nat.succ k = day + 1 + k := by omega
          rw [this]
        rw [harg]
        simp
      simp only [rangeGo]
      rw [generate_ok hp cap (addDays start day) 2023 (d0s day) (draws day)]
      dsimp only
      rw [ih (day + 1) (acc ++ genFrom cap p (addDays start day)
        ((addDays start day).year - 2023) (draws day) 24 0 (d0s day))]
      rw [hstep, List.append_assoc]

/-- C8: for every registered location and every number of days `N`,
`generate_date_range` succeeds and returns exactly the concatenation, in
date order, of the `N` independent `generate_hourly_production` runs on
the consecutive dates `start, start+1, …, start+N−1` (each with the
default `installation_year = 2023`, its own initial soiling draw and its
own hour draws), for a total of `24·N` readings. -/
theorem C8_range_is_daily_concat (cap : ℝ) (loc : String) (start : PyDate)
    (N : ℕ) (d0s : ℕ → ℕ) (draws : ℕ → ℕ → HourDraws) (p : LocationProfile)
    (hp : SOLAR_CONSTANTS loc = some p) :
    generate_date_range cap loc start N d0s draws =
      Except.ok ((List.range N).flatMap fun d =>
        genFrom cap p (addDays start d) ((addDays start d).year - 2023)
          (draws d) 24 0 (d0s d)) ∧
      (∀ d, generate_hourly_production cap loc (addDays start d) 2023
          (d0s d) (draws d) =
        Except.ok (genFrom cap p (addDays start d)
          ((addDays start d).year - 2023) (draws d) 24 0 (d0s d))) ∧
      ((List.range N).flatMap fun d =>
        genFrom cap p (addDays start d) ((addDays start d).year - 2023)
          (draws d) 24 0 (d0s d)).length = 24 * N := by
  refine ⟨?_, fun d => generate_ok hp cap (addDays start d) 2023 (d0s d)
    (draws d), ?_⟩
  · unfold generate_date_range
    rw [rangeGo_ok hp cap start d0s draws N 0 []]
    simp
  · rw [List.length_flatMap]
    have : (List.map (List.length ∘ fun d =>
        genFrom cap p (addDays start d) ((addDays start d).year - 2023)
          (draws d) 24 0 (d0s d)) (List.range N)) =
        List.map (fun _ => 24) (List.range N) := by
      apply List.map_congr_left
      intro d _
      exact genFrom_length cap p (addDays start d)
        ((addDays start d).year - 2023) (draws d) 24 0 (d0s d)
    rw [this]
    induction N with
    | zero => simp
    | succ n ihn =>
        rw [List.range_succ, List.map_append, List.sum_append]
        simp [ihn]
        omega

/-- C8 witness: a concrete 2-day NAIROBI range. -/
theorem C8_range_is_daily_concat_witness :
    generate_date_range 10 "NAIROBI" ⟨2023, 6, 15⟩ 2 (fun _ => 0)
        (fun _ _ => ⟨0, 0, 0, 0, 0, 0, 0, 0⟩) =
      Except.ok ((List.range 2).flatMap fun d =>
        genFrom 10 NAIROBI (addDays ⟨2023, 6, 15⟩ d)
          ((addDays ⟨2023, 6, 15⟩ d).year - 2023)
          ((fun _ _ => ⟨0, 0, 0, 0, 0, 0, 0, 0⟩) d) 24 0 0) :=
  (C8_range_is_daily_concat 10 "NAIROBI" ⟨2023, 6, 15⟩ 2 (fun _ => 0)
    (fun _ _ => ⟨0, 0, 0, 0, 0, 0, 0, 0⟩) NAIROBI
    (by simp [SOLAR_CONSTANTS])).1

/-! ### Claim C3: no system-efficiency factor in the pipeline -/

/-- C3 (amended): the hour pipeline applies no system-efficiency
multiplier.  On a fault-free, sunny, uncurtailed hour of a dry month the
pre-clamp value is exactly capacity × clear-sky factor × weather
efficiency 1.0 × temperature derate × soiling derate × degradation factor
× gauss noise — the constant `SYSTEM_EFFICIENCY = 0.85` of `constants.py`
appears nowhere in the chain (it is defined but never used), so `power_kw`
is not bounded by `0.85 · capacity · cs_factor`. -/
theorem C3_no_system_efficiency_step (cap : ℝ) (p : LocationProfile)
    (date : PyDate) (yrs : ℤ) (h dB : ℕ) (dr : HourDraws)
    (hw : dr.weather_r ≤ 0.7) (hf : 0.025 ≤ dr.fault_r) (hg : h % 60 ≠ 0)
    (hdry : date.month ∉ ([3, 4, 5, 10, 11, 12] : List ℤ)) :
    prePower cap p date yrs h dB dr =
      cap * clear_sky_irradiance p.latitude date h * 1.0 *
        (1 - max 0 ((simulate_temperature h - 25) * 0.004)) *
        max 0.8 (1 - 0.01 * ((min dB 20 : ℕ) : ℝ)) *
        (1 - 0.005 * (yrs : ℝ) - ((max 0 (yrs - 4) : ℤ) : ℝ) * 0.01 * dr.degr_u) *
        (1 + 0.01 * dr.noise_g) ∧
      SYSTEM_EFFICIENCY = 0.85 := by
  constructor
  · unfold prePower
    rw [weather_sunny hw]
    unfold seasonArg
    rw [if_neg hdry]
    unfold apply_temperature_loss apply_soiling panel_degradation
      panel_faults behavioral_grid_event inject_noise
    dsimp only
    rw [if_neg (by linarith : ¬ dr.fault_r < 0.005),
      if_neg (by linarith : ¬ dr.fault_r < 0.025), if_neg hg,
      if_neg (by simp : ¬ (("dry" : String) = "long rains" ∨
        ("dry" : String) = "short rains")),
      if_neg (by simp : ¬ ("sunny" : String) = "cloudy")]
    ring
  · rfl

/-- C3 witness: the product form at a concrete fault-free sunny hour. -/
theorem C3_no_system_efficiency_step_witness :
    prePower 100 NAIROBI ⟨2023, 6, 15⟩ 0 12 11 ⟨1/2, 0, 1/2, 0, 10, 0, 0, 1/2⟩ =
      100 * clear_sky_irradiance NAIROBI.latitude ⟨2023, 6, 15⟩ 12 * 1.0 *
        (1 - max 0 ((simulate_temperature 12 - 25) * 0.004)) *
        max 0.8 (1 - 0.01 * ((min 11 20 : ℕ) : ℝ)) *
        (1 - 0.005 * ((0 : ℤ) : ℝ) - ((max 0 ((0 : ℤ) - 4) : ℤ) : ℝ) * 0.01 * 0) *
        (1 + 0.01 * 10) ∧
      SYSTEM_EFFICIENCY = 0.85 :=
  C3_no_system_efficiency_step 100 NAIROBI ⟨2023, 6, 15⟩ 0 12 11
    ⟨1/2, 0, 1/2, 0, 10, 0, 0, 1/2⟩ (by norm_num) (by norm_num) (by norm_num)
    (by decide)

lemma pyRound2_94_82 : pyRound2 (331881 / 3500) = 9482 / 100 := by
  have hf : ⌊(100 * (331881 / 3500 : ℝ))⌋ = 9482 := by
    rw [Int.floor_eq_iff]
    constructor <;> norm_num
  unfold pyRound2 roundHalfEven
  rw [hf]
  norm_num

/-- The hour-12 reading of a capacity-100 run in a dry month of the
installation year, with sunny roll 1/2, gauss variate 10 and no fault or
outage: `power_kw = 94.82`. -/
lemma hourReading_12_power100 (p : LocationProfile) (date : PyDate)
    (hdry : date.month ∉ ([3, 4, 5, 10, 11, 12] : List ℤ)) :
    (hourReading 100 p date 0 12 11 ⟨1/2, 0, 1/2, 0, 10, 0, 0, 1/2⟩).power_kw =
      9482 / 100 := by
  simp only [hourReading]
  unfold finalPower
  rw [if_neg (by norm_num : ¬ (1/2 : ℝ) < 0.003)]
  rw [prePower_12_eval 100 p date hdry 10]
  have hval : (100 : ℝ) * (339 / 350) * (89 / 100) * (1 + 0.01 * 10) =
      331881 / 3500 := by norm_num
  rw [hval, min_eq_left (by norm_num), max_eq_right (by norm_num),
    pyRound2_94_82]

/-- C3 counterexample: a concrete valid NAIROBI run (capacity 100, dry
month, sunny roll, gauss variate 10, no fault or curtailment rolls) whose
hour-12 reading has `power_kw = 94.82`, strictly above
`SYSTEM_EFFICIENCY · capacity · cs_factor = 0.85 · 100 · 1 = 85`: the
pipeline includes no 0.85 system-efficiency step. -/
theorem C3_counterexample :
    ((okReadings (generate_hourly_production 100 "NAIROBI" ⟨2023, 6, 15⟩ 2023 5
        (fun _ => ⟨1/2, 0, 1/2, 0, 10, 0, 0, 1/2⟩))).getD 12 default).power_kw =
      9482 / 100 ∧
    ¬ (((okReadings (generate_hourly_production 100 "NAIROBI" ⟨2023, 6, 15⟩ 2023 5
        (fun _ => ⟨1/2, 0, 1/2, 0, 10, 0, 0, 1/2⟩))).getD 12 default).power_kw ≤
      SYSTEM_EFFICIENCY * 100 *
        clear_sky_irradiance NAIROBI.latitude ⟨2023, 6, 15⟩ 12) := by
  have hp : SOLAR_CONSTANTS "NAIROBI" = some NAIROBI := by simp [SOLAR_CONSTANTS]
  have hpow : ((okReadings (generate_hourly_production 100 "NAIROBI"
      ⟨2023, 6, 15⟩ 2023 5 (fun _ => ⟨1/2, 0, 1/2, 0, 10, 0, 0, 1/2⟩))).getD
      12 default).power_kw = 9482 / 100 := by
    rw [generate_ok hp]
    simp only [okReadings]
    have hy : ((⟨2023, 6, 15⟩ : PyDate).year - 2023 : ℤ) = 0 := by norm_num
    rw [hy]
    rw [genFrom_getD 100 NAIROBI ⟨2023, 6, 15⟩ 0 _ 12 24 0 5 (by norm_num)]
    simp only [Nat.zero_add]
    rw [soilThread_from0 5 (by norm_num) (by norm_num)]
    exact hourReading_12_power100 NAIROBI ⟨2023, 6, 15⟩ (by decide)
  refine ⟨hpow, ?_⟩
  rw [hpow, clear_sky_12]
  unfold SYSTEM_EFFICIENCY
  norm_num

/-! ### Claim C4: seasonal adjustment -/

lemma genFrom_seasonal_irrel (cap lat ap v ap2 v2 : ℝ) (date : PyDate)
    (yrs : ℤ) (draws : ℕ → HourDraws) :
    ∀ n h d, genFrom cap ⟨lat, ap, v⟩ date yrs draws n h d =
      genFrom cap ⟨lat, ap2, v2⟩ date yrs draws n h d := by
  intro n
  induction n with
  | zero => intro h d; rfl
  | succ n ih =>
      intro h d
      simp only [genFrom]
      rw [ih (h + 1) (nextSoil h d)]
      rfl

/-- C4 (amended): `apply_seasonal_variation` (defined in `utils.py`)
scales its input by `1 + variation·0.5` in the dry months Jan, Feb,
Jun–Sep and by `1 − variation·0.5` in the rainy months Mar–May, Oct–Dec —
but `generate_hourly_production` never calls it: the generated readings
are unchanged under any change of the location's `seasonal_variation`
(and `avg_peak_sun_hours`); the month influences the pipeline only through
the `season` string handed to `inject_noise`. -/
theorem C4_seasonal_defined_but_unused (b v : ℝ) (date : PyDate)
    (cap lat ap ap2 v2 : ℝ) (yrs : ℤ) (draws : ℕ → HourDraws) (d0 : ℕ) :
    (date.month ∈ ([1, 2, 6, 7, 8, 9] : List ℤ) →
      apply_seasonal_variation b date v = b * (1 + v * 0.5)) ∧
    (date.month ∈ ([3, 4, 5, 10, 11, 12] : List ℤ) →
      apply_seasonal_variation b date v = b * (1 - v * 0.5)) ∧
    genFrom cap ⟨lat, ap, v⟩ date yrs draws 24 0 d0 =
      genFrom cap ⟨lat, ap2, v2⟩ date yrs draws 24 0 d0 := by
  refine ⟨?_, ?_, genFrom_seasonal_irrel cap lat ap v ap2 v2 date yrs draws 24 0 d0⟩
  · intro hm
    unfold apply_seasonal_variation
    rw [if_pos hm]
  · intro hm
    have hnd : date.month ∉ ([1, 2, 6, 7, 8, 9] : List ℤ) := by
      simp at hm ⊢
      omega
    unfold apply_seasonal_variation
    rw [if_neg hnd, if_pos hm]

/-- Modelled from the spec (claim C4, spec §4.3 step 8): the hour chain of
`generate_hourly_production` with the seasonal adjustment
`apply_seasonal_variation` — which the source defines in `utils.py` but
the generator never calls — inserted between the grid-curtailment step and
the stochastic-noise step, using the location's `seasonal_variation`. -/
noncomputable def prePower_spec_seasonal (cap : ℝ) (p : LocationProfile)
    (date : PyDate) (yrs : ℤ) (h dB : ℕ) (dr : HourDraws) : ℝ :=
  inject_noise
    (apply_seasonal_variation
      (behavioral_grid_event
        (panel_faults
          (panel_degradation
            (apply_soiling
              (apply_temperature_loss
                (cap * clear_sky_irradiance p.latitude date h *
                  (get_weather_condition dr.weather_r).efficiency)
                (simulate_temperature h))
              dB)
            yrs dr.degr_u)
          h dr.fault_r dr.fault_u)
        h)
      date p.seasonal_variation)
    (seasonArg date) (get_weather_condition dr.weather_r)
    dr.noise_g dr.noise_cu dr.noise_su

/-- Modelled from the spec (claim C4): clamp and outage steps applied to
the seasonal-adjusted chain. -/
noncomputable def finalPower_spec_seasonal (cap : ℝ) (p : LocationProfile)
    (date : PyDate) (yrs : ℤ) (h dB : ℕ) (dr : HourDraws) : ℝ :=
  if dr.outage_r < 0.003 then 0
  else max 0 (min (prePower_spec_seasonal cap p date yrs h dB dr) cap)

lemma prePower_spec_seasonal_12_eval (cap : ℝ) (p : LocationProfile)
    (date : PyDate) (hdryU : date.month ∈ ([1, 2, 6, 7, 8, 9] : List ℤ))
    (hdry : date.month ∉ ([3, 4, 5, 10, 11, 12] : List ℤ)) (g : ℝ) :
    prePower_spec_seasonal cap p date 0 12 11 ⟨1/2, 0, 1/2, 0, g, 0, 0, 1/2⟩ =
      cap * (339 / 350) * (89 / 100) * (1 + p.seasonal_variation * 0.5) *
        (1 + 0.01 * g) := by
  unfold prePower_spec_seasonal
  rw [weather_sunny (by norm_num), clear_sky_12, simulate_temperature_12]
  unfold seasonArg
  rw [if_neg hdry]
  unfold apply_seasonal_variation
  rw [if_pos hdryU]
  unfold apply_temperature_loss apply_soiling panel_degradation panel_faults
    behavioral_grid_event inject_noise
  norm_num
  ring_nf
  norm_num [max_eq_right (by norm_num : (0.8:ℝ) ≤ 89 / 100)]
  rw [if_neg (by simp : ¬ (("dry" : String) = "long rains" ∨
      ("dry" : String) = "short rains")),
    if_neg (by simp : ¬ (("sunny" : String) = "cloudy"))]

lemma pyRound2_862_03 : pyRound2 (30171 / 35) = 86203 / 100 := by
  have hf : ⌊(100 * (30171 / 35 : ℝ))⌋ = 86202 := by
    rw [Int.floor_eq_iff]
    constructor <;> norm_num
  unfold pyRound2 roundHalfEven
  rw [hf]
  norm_num

lemma pyRound2_926_68 : pyRound2 (1297353 / 1400) = 92668 / 100 := by
  have hf : ⌊(100 * (1297353 / 1400 : ℝ))⌋ = 92668 := by
    rw [Int.floor_eq_iff]
    constructor <;> norm_num
  unfold pyRound2 roundHalfEven
  rw [hf]
  norm_num

/-- C4 counterexample: on 2023-06-15 (a dry month, NAIROBI
`seasonal_variation = 0.15`) at hour 12 with capacity 1000 and achievable
draws (sunny roll 1/2, gauss variate 0, no fault or outage), the code's
hour reading has `power_kw = 862.03`, whereas the claimed pipeline — the
same chain with the seasonal scaling `1 + 0.15·0.5 = 1.075` applied —
would give `926.68`: the generator does not apply the seasonal adjustment
to the hour's power value. -/
theorem C4_counterexample :
    (hourReading 1000 NAIROBI ⟨2023, 6, 15⟩ 0 12 11
        ⟨1/2, 0, 1/2, 0, 0, 0, 0, 1/2⟩).power_kw = 86203 / 100 ∧
    pyRound2 (finalPower_spec_seasonal 1000 NAIROBI ⟨2023, 6, 15⟩ 0 12 11
        ⟨1/2, 0, 1/2, 0, 0, 0, 0, 1/2⟩) = 92668 / 100 ∧
    (86203 / 100 : ℝ) ≠ 92668 / 100 := by
  refine ⟨?_, ?_, by norm_num⟩
  · simp only [hourReading]
    unfold finalPower
    rw [if_neg (by norm_num : ¬ (1/2 : ℝ) < 0.003)]
    rw [prePower_12_eval 1000 NAIROBI ⟨2023, 6, 15⟩ (by decide) 0]
    have hval : (1000 : ℝ) * (339 / 350) * (89 / 100) * (1 + 0.01 * 0) =
        30171 / 35 := by norm_num
    rw [hval, min_eq_left (by norm_num), max_eq_right (by norm_num),
      pyRound2_862_03]
  · unfold finalPower_spec_seasonal
    rw [if_neg (by norm_num : ¬ (1/2 : ℝ) < 0.003)]
    rw [prePower_spec_seasonal_12_eval 1000 NAIROBI ⟨2023, 6, 15⟩ (by decide)
      (by decide) 0]
    have hv : NAIROBI.seasonal_variation = 0.15 := rfl
    rw [hv]
    have hval : (1000 : ℝ) * (339 / 350) * (89 / 100) * (1 + 0.15 * 0.5) *
        (1 + 0.01 * 0) = 1297353 / 1400 := by norm_num
    rw [hval, min_eq_left (by norm_num), max_eq_right (by norm_num),
      pyRound2_926_68]

/-! ### Claim C5: curtailment indexing -/

lemma flatMap_range_getD :
    ∀ (N : ℕ) (f : ℕ → List HourlyReading), (∀ k, (f k).length = 24) →
      ∀ i, i < 24 * N →
        ((List.range N).flatMap f).getD i default =
          (f (i / 24)).getD (i % 24) default := by
  intro N
  induction N with
  | zero => intro f _ i hi; omega
  | succ N ih =>
      intro f hlen i hi
      rw [List.range_succ_eq_map, List.flatMap_cons, List.flatMap_map]
      by_cases hc : i < 24
      · rw [List.getD_append _ _ _ i (by rw [hlen 0]; exact hc)]
        have h1 : i / 24 = 0 := by omega
        have h2 : i % 24 = i := by omega
        rw [h1, h2]
      · have hge : (f 0).length ≤ i := by rw [hlen 0]; omega
        rw [List.getD_append_right _ _ _ i hge]
        rw [hlen 0]
        have := ih (fun a => f (Nat.succ a)) (fun k => hlen (Nat.succ k))
          (i - 24) (by omega)
        rw [this]
        have h1 : Nat.succ ((i - 24) / 24) = i / 24 := by omega
        have h2 : (i - 24) % 24 = i % 24 := by omega
        simp only [h1, h2]

/-- C5 (amended): the curtailment step receives the clock hour of the day,
not an absolute window index: in `generate_date_range` output the reading
at absolute index `i` is exactly the hour `i % 24` reading of day
`i / 24`, and `behavioral_grid_event` scales by 0.7 precisely when its
hour argument is divisible by 60 — which for clock hours 0–23 means hour 0
of each day (absolute indices 0, 24, 48, …), not every 60th absolute
hour. -/
theorem C5_curtailment_clock_hour (cap : ℝ) (loc : String) (start : PyDate)
    (N : ℕ) (d0s : ℕ → ℕ) (draws : ℕ → ℕ → HourDraws) (p : LocationProfile)
    (rs : List HourlyReading) (i : ℕ)
    (hp : SOLAR_CONSTANTS loc = some p)
    (hr : generate_date_range cap loc start N d0s draws = Except.ok rs)
    (hi : i < 24 * N) :
    rs.getD i default =
      hourReading cap p (addDays start (i / 24))
        ((addDays start (i / 24)).year - 2023) (i % 24)
        (soilThread 0 (d0s (i / 24)) (i % 24)) (draws (i / 24) (i % 24)) ∧
    (∀ q : ℝ, ∀ h', h' % 60 ≠ 0 → behavioral_grid_event q h' = q) ∧
    (∀ q : ℝ, behavioral_grid_event q 0 = q * 0.7) := by
  refine ⟨?_, ?_, ?_⟩
  · unfold generate_date_range at hr
    rw [rangeGo_ok hp cap start d0s draws N 0 []] at hr
    simp only [List.nil_append, Nat.zero_add, Except.ok.injEq] at hr
    subst hr
    rw [flatMap_range_getD N _ (fun k => genFrom_length cap p
      (addDays start k) ((addDays start k).year - 2023) (draws k) 24 0 (d0s k))
      i hi]
    rw [genFrom_getD cap p (addDays start (i / 24))
      ((addDays start (i / 24)).year - 2023) (draws (i / 24)) (i % 24) 24 0
      (d0s (i / 24)) (by omega)]
    simp only [Nat.zero_add]
  · intro q h' hne
    unfold behavioral_grid_event
    rw [if_neg hne]
  · intro q
    unfold behavioral_grid_event
    rw [if_pos (by norm_num)]

/-- C5 witness: in a 3-day NAIROBI range, the reading at absolute index 60
is the hour-12 reading of day 2. -/
theorem C5_curtailment_clock_hour_witness :
    ((List.range 3).flatMap fun d =>
        genFrom 100 NAIROBI (addDays ⟨2023, 6, 15⟩ d)
          ((addDays ⟨2023, 6, 15⟩ d).year - 2023)
          (fun _ => ⟨1/2, 0, 1/2, 0, 10, 0, 0, 1/2⟩) 24 0 5).getD 60 default =
      hourReading 100 NAIROBI (addDays ⟨2023, 6, 15⟩ 2)
        ((addDays ⟨2023, 6, 15⟩ 2).year - 2023) 12 (soilThread 0 5 12)
        ⟨1/2, 0, 1/2, 0, 10, 0, 0, 1/2⟩ ∧
    (∀ q : ℝ, ∀ h', h' % 60 ≠ 0 → behavioral_grid_event q h' = q) ∧
    (∀ q : ℝ, behavioral_grid_event q 0 = q * 0.7) :=
  C5_curtailment_clock_hour 100 "NAIROBI" ⟨2023, 6, 15⟩ 3 (fun _ => 5)
    (fun _ _ => ⟨1/2, 0, 1/2, 0, 10, 0, 0, 1/2⟩) NAIROBI
    ((List.range 3).flatMap fun d =>
      genFrom 100 NAIROBI (addDays ⟨2023, 6, 15⟩ d)
        ((addDays ⟨2023, 6, 15⟩ d).year - 2023)
        (fun _ => ⟨1/2, 0, 1/2, 0, 10, 0, 0, 1/2⟩) 24 0 5) 60
    (by simp [SOLAR_CONSTANTS])
    (by
      unfold generate_date_range
      rw [rangeGo_ok (show SOLAR_CONSTANTS "NAIROBI" = some NAIROBI by
        simp [SOLAR_CONSTANTS]) 100 ⟨2023, 6, 15⟩ (fun _ => 5)
        (fun _ _ => ⟨1/2, 0, 1/2, 0, 10, 0, 0, 1/2⟩) 3 0 []]
      simp only [List.nil_append, Nat.zero_add])
    (by norm_num)

/-- Modelled from the claim (C5): the hour chain of the generator with the
grid-curtailment step keyed to the absolute hour index of the generated
window (`behavioral_grid_event` receiving `absIdx = 24·day + hour`) rather
than the clock hour the code passes. -/
noncomputable def prePowerAbsIdx (cap : ℝ) (p : LocationProfile)
    (date : PyDate) (yrs : ℤ) (absIdx h dB : ℕ) (dr : HourDraws) : ℝ :=
  inject_noise
    (behavioral_grid_event
      (panel_faults
        (panel_degradation
          (apply_soiling
            (apply_temperature_loss
              (cap * clear_sky_irradiance p.latitude date h *
                (get_weather_condition dr.weather_r).efficiency)
              (simulate_temperature h))
            dB)
          yrs dr.degr_u)
        h dr.fault_r dr.fault_u)
      absIdx)
    (seasonArg date) (get_weather_condition dr.weather_r)
    dr.noise_g dr.noise_cu dr.noise_su

lemma prePowerAbsIdx_60_eval (cap : ℝ) (p : LocationProfile) (date : PyDate)
    (hdry : date.month ∉ ([3, 4, 5, 10, 11, 12] : List ℤ)) (g : ℝ) :
    prePowerAbsIdx cap p date 0 60 12 11 ⟨1/2, 0, 1/2, 0, g, 0, 0, 1/2⟩ =
      cap * (339 / 350) * (89 / 100) * 0.7 * (1 + 0.01 * g) := by
  unfold prePowerAbsIdx
  rw [weather_sunny (by norm_num), clear_sky_12, simulate_temperature_12]
  unfold seasonArg
  rw [if_neg hdry]
  unfold apply_temperature_loss apply_soiling panel_degradation panel_faults
    behavioral_grid_event inject_noise
  norm_num
  ring_nf
  norm_num [max_eq_right (by norm_num : (0.8:ℝ) ≤ 89 / 100)]
  rw [if_neg (by simp : ¬ (("dry" : String) = "long rains" ∨
      ("dry" : String) = "short rains")),
    if_neg (by simp : ¬ (("sunny" : String) = "cloudy"))]

lemma pyRound2_66_38 : pyRound2 (2323167 / 35000) = 6638 / 100 := by
  have hf : ⌊(100 * (2323167 / 35000 : ℝ))⌋ = 6637 := by
    rw [Int.floor_eq_iff]
    constructor <;> norm_num
  unfold pyRound2 roundHalfEven
  rw [hf]
  norm_num

/-- C5 counterexample: in a concrete 3-day NAIROBI range, the reading at
absolute hour index 60 (day 2, clock hour 12) has `power_kw = 94.82` —
the curtailment step received clock hour 12 and did not fire — whereas
the claimed absolute-index curtailment would have scaled that hour by 0.7
and produced `66.38`. -/
theorem C5_counterexample :
    ((okReadings (generate_date_range 100 "NAIROBI" ⟨2023, 6, 15⟩ 3 (fun _ => 5)
        (fun _ _ => ⟨1/2, 0, 1/2, 0, 10, 0, 0, 1/2⟩))).getD 60 default).power_kw =
      9482 / 100 ∧
    pyRound2 (max 0 (min (prePowerAbsIdx 100 NAIROBI (addDays ⟨2023, 6, 15⟩ 2)
        0 60 12 11 ⟨1/2, 0, 1/2, 0, 10, 0, 0, 1/2⟩) 100)) = 6638 / 100 ∧
    (9482 / 100 : ℝ) ≠ 6638 / 100 := by
  refine ⟨?_, ?_, by norm_num⟩
  · unfold generate_date_range
    rw [rangeGo_ok (show SOLAR_CONSTANTS "NAIROBI" = some NAIROBI by
      simp [SOLAR_CONSTANTS]) 100 ⟨2023, 6, 15⟩ (fun _ => 5)
      (fun _ _ => ⟨1/2, 0, 1/2, 0, 10, 0, 0, 1/2⟩) 3 0 []]
    simp only [okReadings, List.nil_append, Nat.zero_add]
    rw [flatMap_range_getD 3 _ (fun k => genFrom_length 100 NAIROBI
      (addDays ⟨2023, 6, 15⟩ k) ((addDays ⟨2023, 6, 15⟩ k).year - 2023)
      (fun _ => ⟨1/2, 0, 1/2, 0, 10, 0, 0, 1/2⟩) 24 0 5) 60 (by norm_num)]
    have h60d : (60 : ℕ) / 24 = 2 := by norm_num
    have h60m : (60 : ℕ) % 24 = 12 := by norm_num
    rw [h60d, h60m]
    have hy : ((addDays ⟨2023, 6, 15⟩ 2).year - 2023 : ℤ) = 0 := by decide
    rw [hy]
    rw [genFrom_getD 100 NAIROBI (addDays ⟨2023, 6, 15⟩ 2) 0 _ 12 24 0 5
      (by norm_num)]
    simp only [Nat.zero_add]
    rw [soilThread_from0 5 (by norm_num) (by norm_num)]
    exact hourReading_12_power100 NAIROBI (addDays ⟨2023, 6, 15⟩ 2) (by decide)
  · rw [prePowerAbsIdx_60_eval 100 NAIROBI (addDays ⟨2023, 6, 15⟩ 2)
      (by decide) 10]
    have hval : (100 : ℝ) * (339 / 350) * (89 / 100) * 0.7 * (1 + 0.01 * 10) =
        2323167 / 35000 := by norm_num
    rw [hval, min_eq_left (by norm_num), max_eq_right (by norm_num),
      pyRound2_66_38]
